import Mathlib

/-!
Verification of the La Spaziale S50 button-press monitor and async delivery
executor, shallowly embedded from `machine/button_monitor.py` and
`machine/tasks.py`.

Conventions of the embedding:
* Python dicts keyed by the strings `"group_<n>"` become `GroupMap`s keyed by
  the group number `n` (the key is in bijection with the number).
* The machine driver, the repository (Django ORM) and the cache are external
  collaborators; each call the monitored code makes to them is an explicit
  input (`MachineEnv`, `TaskEnv`, the `enabled_flag` argument).
* A call that can raise is modelled with an explicit error alternative
  (`Fetch.raises`, `Except.error`, the `create_raises` / `get_fault` /
  `recovery_fails` knobs); Python `try/except` blocks become matches on those
  alternatives, so control flow after a raise is modelled exactly where the
  source catches it.
* `timezone.now()` is an abstract tick, passed as a `Nat` parameter `now`.
-/

namespace Spaziale

/-- The seven coffee-type strings used by `button_monitor.py`. -/
inductive CoffeeType where
  | single_short
  | single_medium
  | single_long
  | double_short
  | double_medium
  | double_long
  | purge
deriving DecidableEq, Repr

/-- String rendering of a coffee type, as the Python code spells it. -/
def CoffeeType.str : CoffeeType → String
  | .single_short => "single_short"
  | .single_medium => "single_medium"
  | .single_long => "single_long"
  | .double_short => "double_short"
  | .double_medium => "double_medium"
  | .double_long => "double_long"
  | .purge => "purge"

/-- A decoded per-group status record: the `status_dict` returned by
`get_group_selection`, one boolean activity flag per coffee-type variant. -/
structure StatusDict where
  single_short : Bool
  single_medium : Bool
  single_long : Bool
  double_short : Bool
  double_medium : Bool
  double_long : Bool
  purge : Bool
deriving DecidableEq, Repr

/-- `ButtonPressMonitor.get_coffee_type_from_status`: the if/elif chain that
converts status bits to a coffee type, first true flag wins. -/
def get_coffee_type_from_status (status_dict : StatusDict) : Option CoffeeType :=
  if status_dict.single_short then some CoffeeType.single_short
  else if status_dict.single_medium then some CoffeeType.single_medium
  else if status_dict.single_long then some CoffeeType.single_long
  else if status_dict.double_short then some CoffeeType.double_short
  else if status_dict.double_medium then some CoffeeType.double_medium
  else if status_dict.double_long then some CoffeeType.double_long
  else if status_dict.purge then some CoffeeType.purge
  else none

/-- `ButtonPressMonitor.is_delivery_active`: `any` over the seven flags. -/
def is_delivery_active (status_dict : StatusDict) : Bool :=
  status_dict.single_short || status_dict.single_medium || status_dict.single_long ||
  status_dict.double_short || status_dict.double_medium || status_dict.double_long ||
  status_dict.purge

/-- Finite map keyed by group number, mirroring a Python dict keyed by
`"group_<n>"` (insertion order preserved, set replaces in place, del removes). -/
structure GroupMap (α : Type) where
  entries : List (Nat × α)
deriving DecidableEq, Repr

/-- Python `d.get(k)` on the underlying entry list. -/
def GroupMap.findList {α : Type} : List (Nat × α) → Nat → Option α
  | [], _ => none
  | (k2, v) :: rest, k => if k2 = k then some v else GroupMap.findList rest k

/-- Python `d[k] = v` on the underlying entry list. -/
def GroupMap.setList {α : Type} : List (Nat × α) → Nat → α → List (Nat × α)
  | [], k, v => [(k, v)]
  | (k2, v2) :: rest, k, v =>
    if k2 = k then (k2, v) :: rest else (k2, v2) :: GroupMap.setList rest k v

/-- Python `del d[k]` on the underlying entry list. -/
def GroupMap.delList {α : Type} : List (Nat × α) → Nat → List (Nat × α)
  | [], _ => []
  | (k2, v2) :: rest, k => if k2 = k then rest else (k2, v2) :: GroupMap.delList rest k

/-- Python `d.get(k)`. -/
def GroupMap.find? {α : Type} (m : GroupMap α) (k : Nat) : Option α :=
  GroupMap.findList m.entries k

/-- Python `d[k] = v`. -/
def GroupMap.insert {α : Type} (m : GroupMap α) (k : Nat) (v : α) : GroupMap α :=
  ⟨GroupMap.setList m.entries k v⟩

/-- Python `del d[k]`. -/
def GroupMap.erase {α : Type} (m : GroupMap α) (k : Nat) : GroupMap α :=
  ⟨GroupMap.delList m.entries k⟩

/-- Python `len(d)`. -/
def GroupMap.length {α : Type} (m : GroupMap α) : Nat :=
  m.entries.length

/-- `ButtonPressMonitor.detect_button_press`: returns the coffee type of a
newly started delivery, comparing the current snapshot against the stored
previous one.  `previous_states.get(group_key, {})` yields the empty dict when
no snapshot was stored, and the empty dict is falsy, so `was_active` is then
`False`; a stored snapshot always has all seven keys and is truthy. -/
def detect_button_press (previous_states : GroupMap StatusDict) (group_num : Nat)
    (current_status : StatusDict) : Option CoffeeType :=
  let was_active :=
    match previous_states.find? group_num with
    | some previous_status => is_delivery_active previous_status
    | none => false
  let is_active := is_delivery_active current_status
  if !was_active && is_active then
    get_coffee_type_from_status current_status
  else
    none

/-- Delivery status strings used by the code. -/
inductive DStatus where
  | pending
  | in_progress
  | completed
  | failed
deriving DecidableEq, Repr

/-- Delivery trigger strings used by the code. -/
inductive Trigger where
  | manual
  | automatic
deriving DecidableEq, Repr

/-- A `CoffeeDelivery` row. -/
structure Delivery where
  id : Nat
  coffee_type : CoffeeType
  group_number : Nat
  status : DStatus
  trigger_type : Trigger
  started_at : Option Nat
  completed_at : Option Nat
  error_message : Option String
deriving DecidableEq, Repr

/-- `log_type` strings used by the code. -/
inductive LogType where
  | manual_delivery
  | purge
  | health_check
  | connection_issue
deriving DecidableEq, Repr

/-- A `MaintenanceLog` row.  `resolved` is `none` when the creating call does
not pass the field (`models.py` is not part of the sources, so its default is
left abstract). -/
structure MaintLog where
  log_type : LogType
  group_number : Option Nat
  message : String
  resolved : Option Bool
deriving DecidableEq, Repr

/-- The repository (Django ORM) state: delivery rows, maintenance-log rows and
the next delivery primary key the repository will assign. -/
structure DB where
  deliveries : List Delivery
  logs : List MaintLog
  next_id : Nat
deriving DecidableEq, Repr

/-- `CoffeeDelivery.objects.get(id=...)`: first row with the given id. -/
def find_delivery (db : DB) (delivery_id : Nat) : Option Delivery :=
  db.deliveries.find? (fun d => d.id == delivery_id)

/-- `delivery.save()` on an existing row: replace the row with the same id. -/
def DB.update (db : DB) (d : Delivery) : DB :=
  { db with deliveries := db.deliveries.map (fun x => if x.id == d.id then d else x) }

/-- `MaintenanceLog.objects.create(...)`. -/
def DB.addLog (db : DB) (entry : MaintLog) : DB :=
  { db with logs := db.logs ++ [entry] }

/-- `log_type='manual_delivery' if coffee_type != 'purge' else 'purge'`. -/
def manual_log_type (ct : CoffeeType) : LogType :=
  if ct ≠ CoffeeType.purge then LogType.manual_delivery else LogType.purge

/-- The delivery row that `create_manual_delivery_record` creates. -/
def mk_manual_delivery (id now group_num : Nat) (coffee_type : CoffeeType) : Delivery :=
  { id := id
    coffee_type := coffee_type
    group_number := group_num
    status := DStatus.in_progress
    trigger_type := Trigger.manual
    started_at := some now
    completed_at := none
    error_message := none }

/-- The log row created alongside a manual delivery start. -/
def started_log (group_num : Nat) (ct : CoffeeType) : MaintLog :=
  let cts := CoffeeType.str ct
  { log_type := manual_log_type ct
    group_number := some group_num
    message := s!"Manual {cts} delivery started via physical button on group {group_num}"
    resolved := none }

/-- `ButtonPressMonitor.create_manual_delivery_record`: create the delivery row
(status `in_progress`, trigger `manual`, `started_at` now) and the start log
row; returns the created delivery and the updated repository. -/
def create_manual_delivery_record (db : DB) (now group_num : Nat)
    (coffee_type : CoffeeType) : Delivery × DB :=
  let delivery := mk_manual_delivery db.next_id now group_num coffee_type
  (delivery,
    DB.addLog
      { db with deliveries := db.deliveries ++ [delivery], next_id := db.next_id + 1 }
      (started_log group_num coffee_type))

/-- The log row created alongside a manual delivery completion. -/
def completion_log (group_num : Nat) (ct : CoffeeType) : MaintLog :=
  let cts := CoffeeType.str ct
  { log_type := manual_log_type ct
    group_number := some group_num
    message := s!"Manual {cts} delivery completed on group {group_num}"
    resolved := none }

/-- `ButtonPressMonitor.update_delivery_completion`: set the row to
`completed` with `completed_at` now, save it, and write the completion log. -/
def update_delivery_completion (db : DB) (now group_num : Nat) (delivery : Delivery) : DB :=
  DB.addLog
    (DB.update db { delivery with status := DStatus.completed, completed_at := some now })
    (completion_log group_num delivery.coffee_type)

/-- Outcome of one `machine.get_group_selection(group_num)` call: a snapshot,
`None`, or a raised exception carrying `str(e)`. -/
inductive Fetch where
  | ok (s : StatusDict)
  | noneResult
  | raises (msg : String)
deriving DecidableEq, Repr

/-- The external collaborators one monitoring cycle consults: connectivity,
the reported group count (`None`, like `0`, is falsy in Python), the per-group
snapshot fetch, and whether `CoffeeDelivery.objects.create` raises a
persistence error (carrying `str(e)`) for a given group. -/
structure MachineEnv where
  connected : Bool
  num_groups_raw : Option Nat
  fetch : Nat → Fetch
  create_raises : Nat → Option String

/-- `num_groups = self.machine.get_number_of_groups() or 3` (falsy → 3). -/
def num_groups (env : MachineEnv) : Nat :=
  match env.num_groups_raw with
  | none => 3
  | some n => if n = 0 then 3 else n

/-- `range(1, min(num_groups + 1, 5))`: the groups one cycle enumerates. -/
def groups_list (env : MachineEnv) : List Nat :=
  List.range' 1 (min (num_groups env) 4)

/-- One entry of the cycle's `activities` summary list. -/
inductive Activity where
  | delivery_started (group : Nat) (coffee_type : CoffeeType) (delivery_id : Nat)
  | delivery_completed (group : Nat) (coffee_type : CoffeeType) (delivery_id : Nat)
  | error (group : Nat) (message : String)
deriving DecidableEq, Repr

/-- The in-memory monitor state: `self.previous_states` and
`self.active_deliveries`. -/
structure CycleState where
  previous_states : GroupMap StatusDict
  active_deliveries : GroupMap Delivery
deriving DecidableEq, Repr

/-- Tail of the per-group try block, after the button-press check: the
completion check (`if group_key in self.active_deliveries and not is_active`)
followed by `self.previous_states[group_key] = current_status.copy()`. -/
def finish_group (now group_num : Nat) (current_status : StatusDict)
    (st : CycleState) (db : DB) (acts : List Activity) : CycleState × DB × List Activity :=
  match st.active_deliveries.find? group_num, is_delivery_active current_status with
  | some delivery, false =>
    ({ previous_states := st.previous_states.insert group_num current_status
       active_deliveries := st.active_deliveries.erase group_num },
     update_delivery_completion db now group_num delivery,
     acts ++ [Activity.delivery_completed group_num delivery.coffee_type delivery.id])
  | some _, true =>
    ({ st with previous_states := st.previous_states.insert group_num current_status },
     db, acts)
  | none, _ =>
    ({ st with previous_states := st.previous_states.insert group_num current_status },
     db, acts)

/-- The body of the per-group `try`/`except` in `monitor_single_cycle`,
returning the updated monitor state, repository and the activities this group
contributed.  A raised exception (from the fetch or from the repository
create) is caught by the `except` clause, which appends an `error` activity
with `str(e)` and leaves every effect after the raise undone. -/
def process_group (env : MachineEnv) (now group_num : Nat) (st : CycleState) (db : DB) :
    CycleState × DB × List Activity :=
  match env.fetch group_num with
  | Fetch.raises msg => (st, db, [Activity.error group_num msg])
  | Fetch.noneResult => (st, db, [])
  | Fetch.ok current_status =>
    match detect_button_press st.previous_states group_num current_status with
    | some coffee_type =>
      match env.create_raises group_num with
      | some msg => (st, db, [Activity.error group_num msg])
      | none =>
        let created := create_manual_delivery_record db now group_num coffee_type
        finish_group now group_num current_status
          { st with active_deliveries := st.active_deliveries.insert group_num created.1 }
          created.2
          [Activity.delivery_started group_num coffee_type created.1.id]
    | none => finish_group now group_num current_status st db []

/-- Folding step of the group loop: run one group, append its activities. -/
def cycle_step (env : MachineEnv) (now : Nat) (acc : CycleState × DB × List Activity)
    (group_num : Nat) : CycleState × DB × List Activity :=
  ((process_group env now group_num acc.1 acc.2.1).1,
   (process_group env now group_num acc.1 acc.2.1).2.1,
   acc.2.2 ++ (process_group env now group_num acc.1 acc.2.1).2.2)

/-- The cycle result dict.  `open_count` is the `active_deliveries` length;
the key is absent (`none`) in the disconnected result. -/
structure CycleResult where
  status : String
  activities : List Activity
  open_count : Option Nat
deriving DecidableEq, Repr

/-- `ButtonPressMonitor.monitor_single_cycle`. -/
def monitor_single_cycle (env : MachineEnv) (now : Nat) (st : CycleState) (db : DB) :
    CycleResult × CycleState × DB :=
  if env.connected = false then
    ({ status := "disconnected", activities := [], open_count := none }, st, db)
  else
    ({ status := "active"
       activities := ((groups_list env).foldl (cycle_step env now) (st, db, [])).2.2
       open_count :=
         some (((groups_list env).foldl (cycle_step env now) (st, db, [])).1).active_deliveries.length },
     ((groups_list env).foldl (cycle_step env now) (st, db, [])).1,
     ((groups_list env).foldl (cycle_step env now) (st, db, [])).2.1)

/-- The `{'success': bool, 'message': str}` dict `machine.deliver_coffee`
returns. -/
structure DeliverResult where
  success : Bool
  message : String
deriving DecidableEq, Repr

/-- External collaborators of `deliver_coffee_async`: connectivity, the
delivery command (which can raise, modelled as `Except.error str(e)`), the
bounded wait, plus fault knobs: `get_fault` makes the initial
`CoffeeDelivery.objects.get` raise, and `recovery_fails` makes the
`except`-block recovery (its own get/save) raise. -/
structure TaskEnv where
  ensure_connection : Bool
  deliver_coffee : Nat → CoffeeType → Except String DeliverResult
  wait_until_group_is_free : Nat → Nat → Bool
  get_fault : Option String
  recovery_fails : Bool
  now : Nat

/-- The `try` block of `deliver_coffee_async`: either a normal return value
`(bool, repository)` or a raised exception carrying `str(e)`. -/
def deliver_attempt (env : TaskEnv) (db : DB) (delivery_id : Nat) :
    Except String (Bool × DB) :=
  match env.get_fault with
  | some msg => Except.error msg
  | none =>
    match find_delivery db delivery_id with
    | none => Except.error "CoffeeDelivery matching query does not exist."
    | some delivery =>
      if env.ensure_connection = false then
        Except.ok (false,
          DB.update db { delivery with
            status := DStatus.failed
            error_message := some "Failed to connect to machine" })
      else
        match env.deliver_coffee delivery.group_number delivery.coffee_type with
        | Except.error msg => Except.error msg
        | Except.ok result =>
          if result.success then
            let d1 := { delivery with status := DStatus.in_progress }
            let db1 := DB.update db d1
            let d2 :=
              if env.wait_until_group_is_free delivery.group_number 120 then
                { d1 with status := DStatus.completed, completed_at := some env.now }
              else
                { d1 with status := DStatus.failed, error_message := some "Delivery timeout" }
            Except.ok (d2.status == DStatus.completed, DB.update db1 d2)
          else
            let d2 := { delivery with
              status := DStatus.failed
              error_message := some result.message }
            Except.ok (d2.status == DStatus.completed, DB.update db d2)

/-- The `except` block of `deliver_coffee_async`: reload the delivery, mark it
failed with `str(e)`, save; any failure of that recovery is swallowed by the
inner bare `except: pass`; returns `False` either way. -/
def deliver_recover (env : TaskEnv) (db : DB) (delivery_id : Nat) (msg : String) :
    Bool × DB :=
  if env.recovery_fails then (false, db)
  else
    match find_delivery db delivery_id with
    | none => (false, db)
    | some delivery =>
      (false,
        DB.update db { delivery with status := DStatus.failed, error_message := some msg })

/-- `deliver_coffee_async` from `machine/tasks.py`. -/
def deliver_coffee_async (env : TaskEnv) (db : DB) (delivery_id : Nat) : Bool × DB :=
  match deliver_attempt env db delivery_id with
  | Except.ok r => r
  | Except.error msg => deliver_recover env db delivery_id msg

/-- Return value of the scheduled `monitor_button_presses` task. -/
inductive TaskResult where
  | disabled (message : String)
  | cycle (r : CycleResult)
deriving DecidableEq, Repr

/-- `monitor_button_presses` from `machine/tasks.py`:
`cache.get('button_monitoring_enabled', True)` gates the cycle; an absent
cache entry (`none`) falls back to the default `True`. -/
def monitor_button_presses (enabled_flag : Option Bool) (env : MachineEnv) (now : Nat)
    (st : CycleState) (db : DB) : TaskResult × CycleState × DB :=
  if enabled_flag.getD true = false then
    (TaskResult.disabled "Button monitoring is disabled", st, db)
  else
    ((TaskResult.cycle (monitor_single_cycle env now st db).1),
     (monitor_single_cycle env now st db).2.1,
     (monitor_single_cycle env now st db).2.2)

/-- A one-group machine whose group `g` currently reads snapshot `s`:
connectivity up, `g` groups reported, every group other than `g` reads
`None`, repository writes succeed. -/
def envG (g : Nat) (s : StatusDict) : MachineEnv :=
  { connected := true
    num_groups_raw := some g
    fetch := fun i => if i = g then Fetch.ok s else Fetch.noneResult
    create_raises := fun _ => none }

/-- Poll group `g` once per snapshot in the list, running a full
`monitor_single_cycle` per poll, collecting each cycle's result. -/
def run_manual_group (g : Nat) : CycleState → DB → List StatusDict →
    List CycleResult × CycleState × DB
  | st, db, [] => ([], st, db)
  | st, db, s :: rest =>
    let c := monitor_single_cycle (envG g s) 0 st db
    let r := run_manual_group g c.2.1 c.2.2 rest
    (c.1 :: r.1, r.2.1, r.2.2)

/-- Priority order of the coffee-type flags, as the spec states it. -/
def coffee_priority : List CoffeeType :=
  [CoffeeType.single_short, CoffeeType.single_medium, CoffeeType.single_long,
   CoffeeType.double_short, CoffeeType.double_medium, CoffeeType.double_long,
   CoffeeType.purge]

/-- The activity flag of a snapshot that corresponds to a coffee type. -/
def StatusDict.flag (s : StatusDict) : CoffeeType → Bool
  | CoffeeType.single_short => s.single_short
  | CoffeeType.single_medium => s.single_medium
  | CoffeeType.single_long => s.single_long
  | CoffeeType.double_short => s.double_short
  | CoffeeType.double_medium => s.double_medium
  | CoffeeType.double_long => s.double_long
  | CoffeeType.purge => s.purge

/-- Snapshot with every activity flag low (machine idle). -/
def snapIdle : StatusDict :=
  ⟨false, false, false, false, false, false, false⟩

/-- Snapshot with only the `single_short` flag high. -/
def snapSS : StatusDict :=
  ⟨true, false, false, false, false, false, false⟩

/-- Fresh monitor state: no previous snapshots, no tracked deliveries. -/
def emptyState : CycleState := ⟨⟨[]⟩, ⟨[]⟩⟩

/-- Fresh repository: no rows, next primary key 1. -/
def emptyDB : DB := ⟨[], [], 1⟩

/-- One-group machine that currently reads idle on every group. -/
def envUntracked : MachineEnv :=
  { connected := true
    num_groups_raw := some 1
    fetch := fun _ => Fetch.ok snapIdle
    create_raises := fun _ => none }

/-- Monitor state remembering an active previous snapshot for group 1 but
tracking no open delivery. -/
def stPrevActive : CycleState := ⟨⟨[(1, snapSS)]⟩, ⟨[]⟩⟩

/-- One-group machine reading an active snapshot whose repository create
raises a persistence error. -/
def envCreateFail : MachineEnv :=
  { connected := true
    num_groups_raw := some 1
    fetch := fun _ => Fetch.ok snapSS
    create_raises := fun _ => some "database write failed" }

/-- One-group machine whose snapshot fetch returns `None`. -/
def envFetchNone : MachineEnv :=
  { connected := true
    num_groups_raw := some 1
    fetch := fun _ => Fetch.noneResult
    create_raises := fun _ => none }

/-- One-group machine whose snapshot fetch raises. -/
def envFetchRaise : MachineEnv :=
  { connected := true
    num_groups_raw := some 1
    fetch := fun _ => Fetch.raises "read failed"
    create_raises := fun _ => none }

/-- Machine with no connectivity. -/
def envDisc : MachineEnv :=
  { connected := false
    num_groups_raw := none
    fetch := fun _ => Fetch.noneResult
    create_raises := fun _ => none }

/-- An open manual delivery on group 2 (status `in_progress`). -/
def deliveryOpen : Delivery := mk_manual_delivery 5 0 2 CoffeeType.single_long

/-- Monitor state in the middle of a press on group 2: active previous
snapshot, one tracked open delivery. -/
def stOpen : CycleState := ⟨⟨[(2, snapSS)]⟩, ⟨[(2, deliveryOpen)]⟩⟩

/-- A pending automatic delivery request, as the API intake would create it. -/
def deliveryOne : Delivery :=
  { id := 7
    coffee_type := CoffeeType.double_long
    group_number := 2
    status := DStatus.pending
    trigger_type := Trigger.automatic
    started_at := none
    completed_at := none
    error_message := none }

/-- Repository holding just `deliveryOne`. -/
def dbOne : DB := ⟨[deliveryOne], [], 8⟩

/-- Executor environment for the happy path: connected, command accepted,
group frees up within the deadline, no faults. -/
def taskEnvOk : TaskEnv :=
  { ensure_connection := true
    deliver_coffee := fun _ _ => Except.ok ⟨true, "Delivery started"⟩
    wait_until_group_is_free := fun _ _ => true
    get_fault := none
    recovery_fails := false
    now := 9 }

/-- Executor environment whose initial repository load raises and whose
recovery write also fails. -/
def taskEnvFault : TaskEnv :=
  { ensure_connection := true
    deliver_coffee := fun _ _ => Except.ok ⟨true, "Delivery started"⟩
    wait_until_group_is_free := fun _ _ => true
    get_fault := some "boom"
    recovery_fails := true
    now := 0 }

/-! ### Basic facts about the snapshot classifier -/

/-- The coffee-type resolver succeeds exactly on active snapshots. -/
theorem coffee_isSome_eq_active (s : StatusDict) :
    (get_coffee_type_from_status s).isSome = is_delivery_active s := by
  rcases s with ⟨a, b, c, d, e, f, p⟩
  cases a <;> cases b <;> cases c <;> cases d <;> cases e <;> cases f <;> cases p <;> rfl

/-- An inactive snapshot resolves to no coffee type. -/
theorem coffee_none_of_inactive (s : StatusDict) (h : is_delivery_active s = false) :
    get_coffee_type_from_status s = none := by
  cases hg : get_coffee_type_from_status s with
  | none => rfl
  | some ct =>
    have hi := coffee_isSome_eq_active s
    rw [hg, h] at hi
    simp at hi

/-- An active snapshot resolves to some coffee type. -/
theorem coffee_some_of_active (s : StatusDict) (h : is_delivery_active s = true) :
    ∃ ct, get_coffee_type_from_status s = some ct := by
  cases hg : get_coffee_type_from_status s with
  | none =>
    have hi := coffee_isSome_eq_active s
    rw [hg, h] at hi
    simp at hi
  | some ct => exact ⟨ct, rfl⟩

/-- An inactive current snapshot is never classified as a press. -/
theorem detect_inactive (m : GroupMap StatusDict) (g : Nat) (s : StatusDict)
    (h : is_delivery_active s = false) :
    detect_button_press m g s = none := by
  unfold detect_button_press
  simp only [h, Bool.and_false]
  rfl

/-- With an absent or inactive previous snapshot, detection reduces to the
coffee-type resolver on the current snapshot. -/
theorem detect_fresh (m : GroupMap StatusDict) (g : Nat) (s : StatusDict)
    (hprev : ∀ p, m.find? g = some p → is_delivery_active p = false) :
    detect_button_press m g s = get_coffee_type_from_status s := by
  unfold detect_button_press
  cases hs : is_delivery_active s with
  | false =>
    rw [coffee_none_of_inactive s hs]
    simp [hs]
  | true =>
    cases hf : m.find? g with
    | none => simp [hf, hs]
    | some p => simp [hf, hs, hprev p hf]

/-- With an active previous snapshot, detection reports no new press. -/
theorem detect_was_active (m : GroupMap StatusDict) (g : Nat) (s p : StatusDict)
    (hf : m.find? g = some p) (hp : is_delivery_active p = true) :
    detect_button_press m g s = none := by
  unfold detect_button_press
  simp [hf, hp]

/-! ### Basic facts about `GroupMap` -/

/-- Setting a key makes it found with the set value. -/
theorem GroupMap.find?_insert_self {α : Type} (m : GroupMap α) (k : Nat) (v : α) :
    (m.insert k v).find? k = some v := by
  rcases m with ⟨l⟩
  show GroupMap.findList (GroupMap.setList l k v) k = some v
  induction l with
  | nil => simp [GroupMap.setList, GroupMap.findList]
  | cons hd tl ih =>
    rcases hd with ⟨k2, v2⟩
    by_cases hk : k2 = k
    · simp [GroupMap.setList, GroupMap.findList, hk]
    · simp [GroupMap.setList, GroupMap.findList, hk, ih]

/-- Setting a key leaves other keys unchanged. -/
theorem GroupMap.find?_insert_ne {α : Type} (m : GroupMap α) (k k2 : Nat) (v : α)
    (h : k ≠ k2) : (m.insert k v).find? k2 = m.find? k2 := by
  rcases m with ⟨l⟩
  show GroupMap.findList (GroupMap.setList l k v) k2 = GroupMap.findList l k2
  induction l with
  | nil => simp [GroupMap.setList, GroupMap.findList, h]
  | cons hd tl ih =>
    rcases hd with ⟨k3, v3⟩
    by_cases hk : k3 = k
    · subst hk
      simp [GroupMap.setList, GroupMap.findList, h]
    · simp [GroupMap.setList, GroupMap.findList, hk, ih]

/-! ### The four edge cases of one group's processing -/

/-- A raising fetch is contained: the state and repository are untouched and
the group contributes one `error` activity. -/
theorem process_group_raises (env : MachineEnv) (now g : Nat) (st : CycleState) (db : DB)
    (msg : String) (hf : env.fetch g = Fetch.raises msg) :
    process_group env now g st db = (st, db, [Activity.error g msg]) := by
  unfold process_group
  rw [hf]

/-- A fetch returning `None` is skipped: no state change, no activity. -/
theorem process_group_none (env : MachineEnv) (now g : Nat) (st : CycleState) (db : DB)
    (hf : env.fetch g = Fetch.noneResult) :
    process_group env now g st db = (st, db, []) := by
  unfold process_group
  rw [hf]

/-- Idle group with nothing tracked: only the previous snapshot is replaced. -/
theorem process_group_idle (env : MachineEnv) (now g : Nat) (st : CycleState) (db : DB)
    (s : StatusDict) (hf : env.fetch g = Fetch.ok s) (hs : is_delivery_active s = false)
    (ha : st.active_deliveries.find? g = none) :
    process_group env now g st db =
      ({ st with previous_states := st.previous_states.insert g s }, db, []) := by
  unfold process_group
  simp only [hf]
  rw [detect_inactive _ _ _ hs]
  unfold finish_group
  rw [ha, hs]

/-- Active snapshot after an active previous snapshot: no edge, only the
previous snapshot is replaced. -/
theorem process_group_no_edge (env : MachineEnv) (now g : Nat) (st : CycleState) (db : DB)
    (s p : StatusDict) (hf : env.fetch g = Fetch.ok s) (hs : is_delivery_active s = true)
    (hp : st.previous_states.find? g = some p) (hpa : is_delivery_active p = true) :
    process_group env now g st db =
      ({ st with previous_states := st.previous_states.insert g s }, db, []) := by
  unfold process_group
  simp only [hf]
  rw [detect_was_active _ _ _ _ hp hpa]
  unfold finish_group
  cases hd : st.active_deliveries.find? g with
  | none => rw [hs]
  | some d => rw [hs]

/-- Start edge (active snapshot, previously absent or inactive, repository
write succeeds): a new `in_progress` delivery is created and tracked, the
previous snapshot is replaced, and one `delivery_started` activity with the
fresh id is contributed. -/
theorem process_group_start (env : MachineEnv) (now g : Nat) (st : CycleState) (db : DB)
    (s : StatusDict) (ct : CoffeeType)
    (hf : env.fetch g = Fetch.ok s) (hs : is_delivery_active s = true)
    (hct : get_coffee_type_from_status s = some ct)
    (hprev : ∀ p, st.previous_states.find? g = some p → is_delivery_active p = false)
    (hcr : env.create_raises g = none) :
    process_group env now g st db =
      ({ previous_states := st.previous_states.insert g s
         active_deliveries :=
           st.active_deliveries.insert g (mk_manual_delivery db.next_id now g ct) },
       (create_manual_delivery_record db now g ct).2,
       [Activity.delivery_started g ct db.next_id]) := by
  unfold process_group
  simp only [hf]
  rw [detect_fresh _ _ _ hprev, hct]
  simp only [hcr]
  show finish_group now g s
      { st with active_deliveries :=
          st.active_deliveries.insert g (mk_manual_delivery db.next_id now g ct) }
      (create_manual_delivery_record db now g ct).2
      [Activity.delivery_started g ct db.next_id] = _
  unfold finish_group
  rw [show ({ st with active_deliveries :=
        st.active_deliveries.insert g (mk_manual_delivery db.next_id now g ct)
      } : CycleState).active_deliveries.find? g = some (mk_manual_delivery db.next_id now g ct)
    from GroupMap.find?_insert_self _ _ _, hs]

/-- Completion edge (inactive snapshot with a tracked delivery): the tracked
delivery is finalized and untracked, the previous snapshot is replaced, and
one `delivery_completed` activity is contributed. -/
theorem process_group_complete (env : MachineEnv) (now g : Nat) (st : CycleState) (db : DB)
    (s : StatusDict) (d : Delivery)
    (hf : env.fetch g = Fetch.ok s) (hs : is_delivery_active s = false)
    (hd : st.active_deliveries.find? g = some d) :
    process_group env now g st db =
      ({ previous_states := st.previous_states.insert g s
         active_deliveries := st.active_deliveries.erase g },
       update_delivery_completion db now g d,
       [Activity.delivery_completed g d.coffee_type d.id]) := by
  unfold process_group
  simp only [hf]
  rw [detect_inactive _ _ _ hs]
  unfold finish_group
  rw [hd, hs]
  simp

/-! ### Cycle-level fold lemmas -/

/-- Groups whose fetch returns `None` leave the fold accumulator unchanged. -/
theorem foldl_skip (env : MachineEnv) (now : Nat) (l : List Nat)
    (acc : CycleState × DB × List Activity)
    (h : ∀ i ∈ l, env.fetch i = Fetch.noneResult) :
    l.foldl (cycle_step env now) acc = acc := by
  induction l generalizing acc with
  | nil => rfl
  | cons x xs ih =>
    rw [List.foldl_cons]
    have hstep : cycle_step env now acc x = acc := by
      unfold cycle_step
      rw [process_group_none env now x acc.1 acc.2.1 (h x (by simp))]
      simp
    rw [hstep]
    exact ih acc (fun i hi => h i (by simp [hi]))

/-- One fold step only appends to the accumulated activities. -/
theorem cycle_step_acts_grow (env : MachineEnv) (now : Nat)
    (acc : CycleState × DB × List Activity) (g : Nat) :
    ∃ t, (cycle_step env now acc g).2.2 = acc.2.2 ++ t := by
  exact ⟨(process_group env now g acc.1 acc.2.1).2.2, rfl⟩

/-- The whole fold only appends to the accumulated activities. -/
theorem foldl_acts_grow (env : MachineEnv) (now : Nat) (l : List Nat)
    (acc : CycleState × DB × List Activity) :
    ∃ t, (l.foldl (cycle_step env now) acc).2.2 = acc.2.2 ++ t := by
  induction l generalizing acc with
  | nil => exact ⟨[], by simp⟩
  | cons x xs ih =>
    rw [List.foldl_cons]
    obtain ⟨t1, ht1⟩ := cycle_step_acts_grow env now acc x
    obtain ⟨t2, ht2⟩ := ih (cycle_step env now acc x)
    exact ⟨t1 ++ t2, by rw [ht2, ht1, List.append_assoc]⟩

/-- A group with a raising fetch contributes its `error` activity to the fold
result, wherever it sits in the enumeration. -/
theorem foldl_error_mem (env : MachineEnv) (now : Nat) (l : List Nat)
    (acc : CycleState × DB × List Activity) (g : Nat) (msg : String)
    (hg : g ∈ l) (hf : env.fetch g = Fetch.raises msg) :
    Activity.error g msg ∈ (l.foldl (cycle_step env now) acc).2.2 := by
  induction l generalizing acc with
  | nil => cases hg
  | cons x xs ih =>
    rw [List.foldl_cons]
    rcases List.mem_cons.mp hg with hx | hx
    · subst hx
      obtain ⟨t, ht⟩ := foldl_acts_grow env now xs (cycle_step env now acc g)
      rw [ht]
      have : (cycle_step env now acc g).2.2 = acc.2.2 ++ [Activity.error g msg] := by
        unfold cycle_step
        rw [process_group_raises env now g acc.1 acc.2.1 msg hf]
      rw [this, List.append_assoc]
      simp
    · exact ih (cycle_step env now acc x) hx

/-- Splitting `[1, ..., k+1]` at its last element. -/
theorem range1_concat (k : Nat) : List.range' 1 (k + 1) = List.range' 1 k ++ [k + 1] := by
  rw [List.range'_1_concat]
  simp [Nat.add_comm]

/-- On the one-group machine `envG g s` (with `1 ≤ g ≤ 4`), a monitoring
cycle is exactly the processing of group `g`: every other enumerated group
reads `None` and is skipped. -/
theorem monitor_cycle_envG (g : Nat) (s : StatusDict) (st : CycleState) (db : DB)
    (h1 : 1 ≤ g) (h4 : g ≤ 4) :
    monitor_single_cycle (envG g s) 0 st db =
      ({ status := "active"
         activities := (process_group (envG g s) 0 g st db).2.2
         open_count :=
           some ((process_group (envG g s) 0 g st db).1).active_deliveries.length },
       (process_group (envG g s) 0 g st db).1,
       (process_group (envG g s) 0 g st db).2.1) := by
  obtain ⟨k, rfl⟩ : ∃ k, g = k + 1 := ⟨g - 1, (Nat.succ_pred_eq_of_pos h1).symm⟩
  have hng : num_groups (envG (k + 1) s) = k + 1 := by
    unfold num_groups envG
    simp
  have hgl : groups_list (envG (k + 1) s) = List.range' 1 k ++ [k + 1] := by
    unfold groups_list
    rw [hng, Nat.min_eq_left h4, range1_concat]
  have hside : ∀ i ∈ List.range' 1 k, (envG (k + 1) s).fetch i = Fetch.noneResult := by
    intro i hi
    have hlt : i < 1 + k := (List.mem_range'_1.mp hi).2
    show (if i = k + 1 then Fetch.ok s else Fetch.noneResult) = Fetch.noneResult
    rw [if_neg (by omega)]
  have hfold :
      (groups_list (envG (k + 1) s)).foldl (cycle_step (envG (k + 1) s) 0) (st, db, []) =
        cycle_step (envG (k + 1) s) 0 (st, db, []) (k + 1) := by
    rw [hgl, List.foldl_append, foldl_skip _ _ _ _ hside]
    rfl
  show monitor_single_cycle (envG (k + 1) s) 0 st db = _
  unfold monitor_single_cycle
  rw [if_neg (by simp [envG])]
  rw [hfold]
  unfold cycle_step
  simp

/-! ### Multi-cycle runs of the one-group machine -/

/-- Unfolding one poll of `run_manual_group` through the cycle lemma. -/
theorem run_manual_group_cons (g : Nat) (st : CycleState) (db : DB) (s : StatusDict)
    (rest : List StatusDict) (h1 : 1 ≤ g) (h4 : g ≤ 4) :
    run_manual_group g st db (s :: rest) =
      ({ status := "active"
         activities := (process_group (envG g s) 0 g st db).2.2
         open_count :=
           some ((process_group (envG g s) 0 g st db).1).active_deliveries.length } ::
         (run_manual_group g (process_group (envG g s) 0 g st db).1
           (process_group (envG g s) 0 g st db).2.1 rest).1,
       (run_manual_group g (process_group (envG g s) 0 g st db).1
         (process_group (envG g s) 0 g st db).2.1 rest).2) := by
  show (let c := monitor_single_cycle (envG g s) 0 st db
        let r := run_manual_group g c.2.1 c.2.2 rest
        (c.1 :: r.1, r.2.1, r.2.2)) = _
  rw [monitor_cycle_envG g s st db h1 h4]

/-- During the sustained part of a press (tracked delivery, active previous
snapshot), every active poll contributes no activity, and the first inactive
poll contributes exactly the `delivery_completed` activity of the tracked
delivery. -/
theorem run_press_tail (g : Nat) (h1 : 1 ≤ g) (h4 : g ≤ 4)
    (rest : List StatusDict) (s_end : StatusDict) (st : CycleState) (db : DB)
    (d : Delivery) (p : StatusDict)
    (htr : st.active_deliveries.find? g = some d)
    (hp : st.previous_states.find? g = some p) (hpa : is_delivery_active p = true)
    (hrest : ∀ s ∈ rest, is_delivery_active s = true)
    (hend : is_delivery_active s_end = false) :
    ((run_manual_group g st db (rest ++ [s_end])).1).map CycleResult.activities =
      (rest.map fun _ => ([] : List Activity)) ++
        [[Activity.delivery_completed g d.coffee_type d.id]] := by
  induction rest generalizing st db p with
  | nil =>
    rw [List.nil_append, run_manual_group_cons g st db s_end [] h1 h4,
      process_group_complete (envG g s_end) 0 g st db s_end d (by simp [envG]) hend htr]
    simp [run_manual_group]
  | cons s rs ih =>
    have hsa : is_delivery_active s = true := hrest s (by simp)
    rw [List.cons_append, run_manual_group_cons g st db s (rs ++ [s_end]) h1 h4,
      process_group_no_edge (envG g s) 0 g st db s p (by simp [envG]) hsa hp hpa]
    have hmap := ih { st with previous_states := st.previous_states.insert g s } db s
      (by simpa using htr)
      (by simpa using GroupMap.find?_insert_self st.previous_states g s)
      hsa
      (fun s2 hs2 => hrest s2 (by simp [hs2]))
    simpa using hmap

/-- C1: for every group `g` (1..4) polled by `monitor_single_cycle` on a
one-group machine, and every snapshot sequence consisting of inactive polls,
then a sustained press (one or more consecutive active polls, preceded by an
absent or inactive previous snapshot), then an inactive poll: the press
produces exactly one `delivery_started` activity, at the first active poll,
carrying the priority-resolved coffee type and the fresh delivery id; the
first subsequent all-flags-false poll produces exactly one
`delivery_completed` activity for that delivery; every other poll of the
sequence produces no activity at all. -/
theorem sustained_press_single_delivery
    (g : Nat) (h1 : 1 ≤ g) (h4 : g ≤ 4)
    (pre : List StatusDict) (a : StatusDict) (rest : List StatusDict) (s_end : StatusDict)
    (st : CycleState) (db : DB)
    (htrack : st.active_deliveries.find? g = none)
    (hprev : ∀ p, st.previous_states.find? g = some p → is_delivery_active p = false)
    (hpre : ∀ s ∈ pre, is_delivery_active s = false)
    (ha : is_delivery_active a = true)
    (hrest : ∀ s ∈ rest, is_delivery_active s = true)
    (hend : is_delivery_active s_end = false) :
    ∃ ct, get_coffee_type_from_status a = some ct ∧
      ((run_manual_group g st db (pre ++ (a :: (rest ++ [s_end])))).1).map
          CycleResult.activities =
        (pre.map fun _ => ([] : List Activity)) ++
          ([Activity.delivery_started g ct db.next_id] ::
            ((rest.map fun _ => ([] : List Activity)) ++
              [[Activity.delivery_completed g ct db.next_id]])) := by
  obtain ⟨ct, hct⟩ := coffee_some_of_active a ha
  refine ⟨ct, hct, ?_⟩
  induction pre generalizing st with
  | nil =>
    rw [List.nil_append,
      run_manual_group_cons g st db a (rest ++ [s_end]) h1 h4,
      process_group_start (envG g a) 0 g st db a ct (by simp [envG]) ha hct hprev rfl]
    have hmap := run_press_tail g h1 h4 rest s_end
      ⟨st.previous_states.insert g a,
        st.active_deliveries.insert g (mk_manual_delivery db.next_id 0 g ct)⟩
      (create_manual_delivery_record db 0 g ct).2
      (mk_manual_delivery db.next_id 0 g ct) a
      (GroupMap.find?_insert_self _ _ _) (GroupMap.find?_insert_self _ _ _) ha hrest hend
    simpa [mk_manual_delivery] using hmap
  | cons q qs ih =>
    have hq : is_delivery_active q = false := hpre q (by simp)
    rw [List.cons_append,
      run_manual_group_cons g st db q (qs ++ (a :: (rest ++ [s_end]))) h1 h4,
      process_group_idle (envG g q) 0 g st db q (by simp [envG]) hq htrack]
    have hmap := ih { st with previous_states := st.previous_states.insert g q }
      (by simpa using htrack)
      (by
        intro p hp2
        simp only [GroupMap.find?_insert_self] at hp2
        simp only [Option.some.injEq] at hp2
        subst hp2
        exact hq)
      (fun s2 hs2 => hpre s2 (by simp [hs2]))
    simpa using hmap

/-- Witness for C1: the spec scenario `[inactive, single_short, single_short,
inactive]` on group 1 from a fresh monitor yields `started(single_short)` at
step 2, `completed` at step 4 and no activities at steps 1 and 3. -/
theorem sustained_press_single_delivery_witness :
    ((run_manual_group 1 emptyState emptyDB
        ([snapIdle] ++ (snapSS :: ([snapSS] ++ [snapIdle])))).1).map
        CycleResult.activities =
      ([snapIdle].map fun _ => ([] : List Activity)) ++
        ([Activity.delivery_started 1 CoffeeType.single_short emptyDB.next_id] ::
          (([snapSS].map fun _ => ([] : List Activity)) ++
            [[Activity.delivery_completed 1 CoffeeType.single_short emptyDB.next_id]])) := by
  obtain ⟨ct, hct, hmap⟩ := sustained_press_single_delivery 1 (by decide) (by decide)
    [snapIdle] snapSS [snapSS] snapIdle emptyState emptyDB
    (by decide)
    (by intro p hp; simp [emptyState, GroupMap.find?, GroupMap.findList] at hp)
    (by decide) (by decide) (by decide) (by decide)
  have h2 : get_coffee_type_from_status snapSS = some CoffeeType.single_short := by decide
  rw [hct] at h2
  injection h2 with h3
  subst h3
  exact hmap

/-- Counterexample for C2: with no previous snapshot stored for group 1
(`find?` is `none`), an active current snapshot is nevertheless classified as
a start — `detect_button_press` returns `some single_short`, so a first
observation can be a "start". -/
theorem first_observation_counterexample :
    (⟨[]⟩ : GroupMap StatusDict).find? 1 = none ∧
      detect_button_press ⟨[]⟩ 1 snapSS = some CoffeeType.single_short := by
  constructor
  · rfl
  · rfl

/-- C2 (amended): for a group with no stored previous snapshot, classification
treats the absent snapshot as inactive: it yields exactly the coffee type the
resolver assigns to the current snapshot — a start whenever any activity flag
of the current snapshot is set, `none` only when the snapshot is idle. -/
theorem first_observation_matches_flags (m : GroupMap StatusDict) (g : Nat)
    (cur : StatusDict) (h : m.find? g = none) :
    detect_button_press m g cur = get_coffee_type_from_status cur :=
  detect_fresh m g cur (fun p hp => by rw [h] at hp; cases hp)

/-- Witness for the amended C2 at a concrete input. -/
theorem first_observation_matches_flags_witness :
    (⟨[]⟩ : GroupMap StatusDict).find? 2 = none ∧
      detect_button_press ⟨[]⟩ 2 snapIdle = get_coffee_type_from_status snapIdle :=
  ⟨rfl, first_observation_matches_flags ⟨[]⟩ 2 snapIdle rfl⟩

/-- Counterexample for C4: a completion edge (previous snapshot active, current
inactive) on a group with no tracked open delivery is handled silently — the
cycle returns with an empty activities list and the repository (including the
maintenance log) is exactly unchanged, so the condition is not recorded as a
logged event or activity. -/
theorem untracked_completion_counterexample :
    stPrevActive.active_deliveries.find? 1 = none ∧
      monitor_single_cycle envUntracked 0 stPrevActive emptyDB =
        ({ status := "active", activities := [], open_count := some 0 },
         ⟨⟨[(1, snapIdle)]⟩, ⟨[]⟩⟩, emptyDB) :=
  ⟨rfl, rfl⟩

/-- C4 (amended): when a group's snapshot becomes inactive while the group has
no tracked open delivery, the cycle does not raise past its boundary — the
group's processing completes normally — but the condition is handled silently:
no activity is appended, no repository row (delivery or maintenance-log entry)
is written, and only the stored previous snapshot is replaced. -/
theorem untracked_completion_silent (env : MachineEnv) (now g : Nat) (st : CycleState)
    (db : DB) (s p : StatusDict)
    (hf : env.fetch g = Fetch.ok s) (hs : is_delivery_active s = false)
    (_hp : st.previous_states.find? g = some p) (_hpa : is_delivery_active p = true)
    (hd : st.active_deliveries.find? g = none) :
    process_group env now g st db =
      ({ st with previous_states := st.previous_states.insert g s }, db, []) :=
  process_group_idle env now g st db s hf hs hd

/-- Witness for the amended C4 at a concrete untracked completion edge. -/
theorem untracked_completion_silent_witness :
    envUntracked.fetch 1 = Fetch.ok snapIdle ∧
      is_delivery_active snapIdle = false ∧
      stPrevActive.previous_states.find? 1 = some snapSS ∧
      is_delivery_active snapSS = true ∧
      stPrevActive.active_deliveries.find? 1 = none ∧
      process_group envUntracked 0 1 stPrevActive emptyDB =
        ({ stPrevActive with
            previous_states := stPrevActive.previous_states.insert 1 snapIdle },
         emptyDB, []) :=
  ⟨rfl, rfl, rfl, rfl, rfl,
   untracked_completion_silent envUntracked 0 1 stPrevActive emptyDB snapIdle snapSS
     rfl rfl rfl rfl rfl⟩

/-- Counterexample for C5: a persistence error raised by the repository while
creating the delivery record does not propagate to the caller of the cycle —
the cycle returns normally, containing the failure as an `error` activity. -/
theorem persistence_error_counterexample :
    envCreateFail.create_raises 1 = some "database write failed" ∧
      monitor_single_cycle envCreateFail 0 emptyState emptyDB =
        ({ status := "active"
           activities := [Activity.error 1 "database write failed"]
           open_count := some 0 },
         emptyState, emptyDB) :=
  ⟨rfl, rfl⟩

/-- C5 (amended): a repository write failure is contained, not propagated.
Inside the monitoring cycle, a raising delivery create on a start edge is
caught by the per-group handler and surfaced as an `error` activity, with
monitor state and repository untouched.  Inside the executor, a raising
repository load is caught, the task returns `False`, and when the recovery
write succeeds the delivery is marked `failed` with the fault's description. -/
theorem persistence_error_contained :
    (∀ (env : MachineEnv) (now g : Nat) (st : CycleState) (db : DB) (s : StatusDict)
        (msg : String),
        env.fetch g = Fetch.ok s → is_delivery_active s = true →
        (∀ p, st.previous_states.find? g = some p → is_delivery_active p = false) →
        env.create_raises g = some msg →
        process_group env now g st db = (st, db, [Activity.error g msg])) ∧
    (∀ (env : TaskEnv) (db : DB) (delivery_id : Nat) (msg : String),
        env.get_fault = some msg → (deliver_coffee_async env db delivery_id).1 = false) ∧
    (∀ (env : TaskEnv) (db : DB) (delivery_id : Nat) (msg : String) (d : Delivery),
        env.get_fault = some msg → env.recovery_fails = false →
        find_delivery db delivery_id = some d →
        deliver_coffee_async env db delivery_id =
          (false, DB.update db
            { d with status := DStatus.failed, error_message := some msg })) := by
  refine ⟨?_, ?_, ?_⟩
  · intro env now g st db s msg hf hs hprev hcr
    obtain ⟨ct, hct⟩ := coffee_some_of_active s hs
    unfold process_group
    simp only [hf]
    rw [detect_fresh _ _ _ hprev, hct]
    simp only [hcr]
  · intro env db delivery_id msg h
    unfold deliver_coffee_async deliver_attempt
    rw [h]
    unfold deliver_recover
    cases hr : env.recovery_fails with
    | true => simp
    | false =>
      simp only [Bool.false_eq_true, if_false]
      cases find_delivery db delivery_id <;> simp
  · intro env db delivery_id msg d h hr hfind
    unfold deliver_coffee_async deliver_attempt
    rw [h]
    unfold deliver_recover
    rw [hr, hfind]
    simp

/-- Witness for the amended C5 at concrete inputs. -/
theorem persistence_error_contained_witness :
    process_group envCreateFail 0 1 emptyState emptyDB =
        (emptyState, emptyDB, [Activity.error 1 "database write failed"]) ∧
      (deliver_coffee_async taskEnvFault emptyDB 3).1 = false :=
  ⟨persistence_error_contained.1 envCreateFail 0 1 emptyState emptyDB snapSS
      "database write failed" rfl rfl
      (by intro p hp; simp [emptyState, GroupMap.find?, GroupMap.findList] at hp) rfl,
   persistence_error_contained.2.1 taskEnvFault emptyDB 3 "boom" rfl⟩

/-- Counterexample for C6: a fetch that returns no snapshot (`None`) does not
append an `error` activity — the group is skipped silently, so the claim's
"both failure shapes produce an error activity" fails on the `None` shape. -/
theorem fetch_none_counterexample :
    envFetchNone.fetch 1 = Fetch.noneResult ∧
      monitor_single_cycle envFetchNone 0 emptyState emptyDB =
        ({ status := "active", activities := [], open_count := some 0 },
         emptyState, emptyDB) :=
  ⟨rfl, rfl⟩

/-- C6 (amended): per-group fetch failures are isolated and never abort the
cycle, but only the raising shape is reported: a fetch that raises leaves
state and repository untouched and contributes exactly one `error` activity,
which reaches the returned cycle result wherever the group sits in the
enumeration; a fetch that returns no snapshot is skipped silently, with no
activity at all. -/
theorem fetch_failure_isolation :
    (∀ (env : MachineEnv) (now g : Nat) (st : CycleState) (db : DB) (msg : String),
        env.fetch g = Fetch.raises msg →
        process_group env now g st db = (st, db, [Activity.error g msg])) ∧
    (∀ (env : MachineEnv) (now g : Nat) (st : CycleState) (db : DB),
        env.fetch g = Fetch.noneResult →
        process_group env now g st db = (st, db, [])) ∧
    (∀ (env : MachineEnv) (now : Nat) (st : CycleState) (db : DB) (g : Nat) (msg : String),
        env.connected = true → g ∈ groups_list env → env.fetch g = Fetch.raises msg →
        Activity.error g msg ∈ ((monitor_single_cycle env now st db).1).activities) := by
  refine ⟨process_group_raises, process_group_none, ?_⟩
  intro env now st db g msg hconn hg hf
  unfold monitor_single_cycle
  rw [if_neg (by rw [hconn]; simp)]
  exact foldl_error_mem env now (groups_list env) (st, db, []) g msg hg hf

/-- Witness for the amended C6 at concrete inputs. -/
theorem fetch_failure_isolation_witness :
    process_group envFetchRaise 0 1 emptyState emptyDB =
        (emptyState, emptyDB, [Activity.error 1 "read failed"]) ∧
      process_group envFetchNone 0 1 emptyState emptyDB = (emptyState, emptyDB, []) ∧
      Activity.error 1 "read failed" ∈
        ((monitor_single_cycle envFetchRaise 0 emptyState emptyDB).1).activities :=
  ⟨fetch_failure_isolation.1 envFetchRaise 0 1 emptyState emptyDB "read failed" rfl,
   fetch_failure_isolation.2.1 envFetchNone 0 1 emptyState emptyDB rfl,
   fetch_failure_isolation.2.2 envFetchRaise 0 emptyState emptyDB 1 "read failed"
     rfl (by decide) rfl⟩

/-- C8: when connectivity cannot be established, the cycle returns status
`disconnected` with an empty activities list, and both the previous-snapshot
map and the open-delivery map are returned exactly unchanged; in particular
every tracked open delivery is still tracked, so reconnection cannot
fabricate a false edge. -/
theorem disconnected_cycle_frame (env : MachineEnv) (now : Nat) (st : CycleState)
    (db : DB) (h : env.connected = false) :
    monitor_single_cycle env now st db =
        ({ status := "disconnected", activities := [], open_count := none }, st, db) ∧
      ∀ g d, st.active_deliveries.find? g = some d →
        ((monitor_single_cycle env now st db).2.1).active_deliveries.find? g = some d := by
  have heq : monitor_single_cycle env now st db =
      ({ status := "disconnected", activities := [], open_count := none }, st, db) := by
    unfold monitor_single_cycle
    rw [if_pos h]
  exact ⟨heq, fun g d hd => by rw [heq]; exact hd⟩

/-- Witness for C8: a disconnect in the middle of an open delivery leaves the
tracked `in_progress` delivery untouched. -/
theorem disconnected_cycle_frame_witness :
    envDisc.connected = false ∧
      monitor_single_cycle envDisc 0 stOpen emptyDB =
        ({ status := "disconnected", activities := [], open_count := none },
         stOpen, emptyDB) ∧
      stOpen.active_deliveries.find? 2 = some deliveryOpen ∧
      deliveryOpen.status = DStatus.in_progress ∧
      ((monitor_single_cycle envDisc 0 stOpen emptyDB).2.1).active_deliveries.find? 2 =
        some deliveryOpen :=
  ⟨rfl, (disconnected_cycle_frame envDisc 0 stOpen emptyDB rfl).1, rfl, rfl,
   (disconnected_cycle_frame envDisc 0 stOpen emptyDB rfl).2 2 deliveryOpen rfl⟩

/-! ### Repository and executor lemmas -/

/-- Replacing the row with id `i` makes the lookup of `i` return it. -/
theorem find?_map_update (l : List Delivery) (i : Nat) (x d : Delivery)
    (h : l.find? (fun e => e.id == i) = some x) (hid : d.id = i) :
    (l.map (fun e => if e.id == d.id then d else e)).find? (fun e => e.id == i) =
      some d := by
  induction l with
  | nil => simp at h
  | cons y ys ih =>
    by_cases hy : (y.id == i) = true
    · have hyd : (y.id == d.id) = true := by rw [hid]; exact hy
      have hdd : (d.id == i) = true := by rw [hid]; simp
      rw [List.map_cons, if_pos hyd,
        List.find?_cons_of_pos (p := fun (e : Delivery) => e.id == i) _ hdd]
    · have hyd : ¬(y.id == d.id) = true := by rw [hid]; exact hy
      rw [List.find?_cons_of_neg (p := fun (e : Delivery) => e.id == i) _ hy] at h
      rw [List.map_cons, if_neg hyd,
        List.find?_cons_of_neg (p := fun (e : Delivery) => e.id == i) _ hy]
      exact ih h

/-- `DB.update` then lookup by the updated id returns the updated row. -/
theorem find_delivery_update (db : DB) (i : Nat) (x d : Delivery)
    (h : find_delivery db i = some x) (hid : d.id = i) :
    find_delivery (DB.update db d) i = some d :=
  find?_map_update db.deliveries i x d h hid

/-- A found delivery has the looked-up id. -/
theorem find_delivery_id (db : DB) (i : Nat) (d : Delivery)
    (h : find_delivery db i = some d) : d.id = i := by
  have hp := List.find?_some h
  simpa using hp

/-- Connectivity failure: the delivery fails with the fixed message, no
command is attempted, the task returns `False`. -/
theorem deliver_async_disconnected (env : TaskEnv) (db : DB) (delivery_id : Nat)
    (delivery : Delivery)
    (hfind : find_delivery db delivery_id = some delivery)
    (hget : env.get_fault = none)
    (hconn : env.ensure_connection = false) :
    deliver_coffee_async env db delivery_id =
      (false, DB.update db { delivery with
        status := DStatus.failed
        error_message := some "Failed to connect to machine" }) := by
  unfold deliver_coffee_async deliver_attempt
  simp only [hget, hfind, if_pos hconn]

/-- Command rejection: the delivery fails with the driver's message. -/
theorem deliver_async_rejected (env : TaskEnv) (db : DB) (delivery_id : Nat)
    (delivery : Delivery) (dr : DeliverResult)
    (hfind : find_delivery db delivery_id = some delivery)
    (hget : env.get_fault = none)
    (hconn : env.ensure_connection = true)
    (hdr : env.deliver_coffee delivery.group_number delivery.coffee_type = Except.ok dr)
    (hsucc : dr.success = false) :
    deliver_coffee_async env db delivery_id =
      (false, DB.update db { delivery with
        status := DStatus.failed
        error_message := some dr.message }) := by
  unfold deliver_coffee_async deliver_attempt
  rw [hget]
  simp only [hfind]
  rw [if_neg (by rw [hconn]; simp)]
  simp only [hdr]
  rw [if_neg (by rw [hsucc]; simp)]
  rfl

/-- Command accepted but the group never frees within the 120s deadline: the
delivery goes `in_progress` and then fails with `"Delivery timeout"`. -/
theorem deliver_async_timeout (env : TaskEnv) (db : DB) (delivery_id : Nat)
    (delivery : Delivery) (dr : DeliverResult)
    (hfind : find_delivery db delivery_id = some delivery)
    (hget : env.get_fault = none)
    (hconn : env.ensure_connection = true)
    (hdr : env.deliver_coffee delivery.group_number delivery.coffee_type = Except.ok dr)
    (hsucc : dr.success = true)
    (hwait : env.wait_until_group_is_free delivery.group_number 120 = false) :
    deliver_coffee_async env db delivery_id =
      (false,
        DB.update (DB.update db { delivery with status := DStatus.in_progress })
          { delivery with
            status := DStatus.failed
            error_message := some "Delivery timeout" }) := by
  unfold deliver_coffee_async deliver_attempt
  rw [hget]
  simp only [hfind]
  rw [if_neg (by rw [hconn]; simp)]
  simp only [hdr]
  rw [if_pos hsucc, if_neg (by rw [hwait]; simp)]
  rfl

/-- Command accepted and the group frees in time: the delivery completes with
`completed_at` set and the task returns `True`. -/
theorem deliver_async_success (env : TaskEnv) (db : DB) (delivery_id : Nat)
    (delivery : Delivery) (dr : DeliverResult)
    (hfind : find_delivery db delivery_id = some delivery)
    (hget : env.get_fault = none)
    (hconn : env.ensure_connection = true)
    (hdr : env.deliver_coffee delivery.group_number delivery.coffee_type = Except.ok dr)
    (hsucc : dr.success = true)
    (hwait : env.wait_until_group_is_free delivery.group_number 120 = true) :
    deliver_coffee_async env db delivery_id =
      (true,
        DB.update (DB.update db { delivery with status := DStatus.in_progress })
          { delivery with
            status := DStatus.completed
            completed_at := some env.now }) := by
  unfold deliver_coffee_async deliver_attempt
  rw [hget]
  simp only [hfind]
  rw [if_neg (by rw [hconn]; simp)]
  simp only [hdr]
  rw [if_pos hsucc, if_pos hwait]
  rfl

/-- C3: `deliver_coffee_async` ends every delivery in exactly the terminal
state its outcome prescribes: connectivity failure fails the delivery with
`"Failed to connect to machine"` without consulting the delivery command;
command rejection fails it with the driver's message; acceptance followed by
the 120-second wait not returning true fails it with `"Delivery timeout"`;
acceptance with the wait returning true completes it with `completed_at` set;
and the call returns true exactly when the terminal status is `completed`. -/
theorem deliver_coffee_async_terminal_states
    (env : TaskEnv) (db : DB) (delivery_id : Nat) (delivery : Delivery)
    (dr : DeliverResult)
    (hfind : find_delivery db delivery_id = some delivery)
    (hget : env.get_fault = none)
    (hdr : env.deliver_coffee delivery.group_number delivery.coffee_type = Except.ok dr) :
    (env.ensure_connection = false →
      deliver_coffee_async env db delivery_id =
        (false, DB.update db { delivery with
          status := DStatus.failed
          error_message := some "Failed to connect to machine" }) ∧
      ∀ f, deliver_coffee_async { env with deliver_coffee := f } db delivery_id =
        deliver_coffee_async env db delivery_id) ∧
    (env.ensure_connection = true → dr.success = false →
      deliver_coffee_async env db delivery_id =
        (false, DB.update db { delivery with
          status := DStatus.failed
          error_message := some dr.message }) ∧
      find_delivery (deliver_coffee_async env db delivery_id).2 delivery_id =
        some { delivery with
          status := DStatus.failed
          error_message := some dr.message }) ∧
    (env.ensure_connection = true → dr.success = true →
      env.wait_until_group_is_free delivery.group_number 120 = false →
      (deliver_coffee_async env db delivery_id).1 = false ∧
      find_delivery (deliver_coffee_async env db delivery_id).2 delivery_id =
        some { delivery with
          status := DStatus.failed
          error_message := some "Delivery timeout" }) ∧
    (env.ensure_connection = true → dr.success = true →
      env.wait_until_group_is_free delivery.group_number 120 = true →
      (deliver_coffee_async env db delivery_id).1 = true ∧
      find_delivery (deliver_coffee_async env db delivery_id).2 delivery_id =
        some { delivery with
          status := DStatus.completed
          completed_at := some env.now }) ∧
    ((deliver_coffee_async env db delivery_id).1 = true ↔
      (find_delivery (deliver_coffee_async env db delivery_id).2 delivery_id).map
        Delivery.status = some DStatus.completed) := by
  have hid : delivery.id = delivery_id := find_delivery_id db delivery_id delivery hfind
  refine ⟨?_, ?_, ?_, ?_, ?_⟩
  · intro hconn
    refine ⟨deliver_async_disconnected env db delivery_id delivery hfind hget hconn, ?_⟩
    intro f
    rw [deliver_async_disconnected { env with deliver_coffee := f } db delivery_id
        delivery hfind hget hconn,
      deliver_async_disconnected env db delivery_id delivery hfind hget hconn]
  · intro hconn hsucc
    have heq := deliver_async_rejected env db delivery_id delivery dr hfind hget hconn
      hdr hsucc
    refine ⟨heq, ?_⟩
    rw [heq]
    exact find_delivery_update db delivery_id delivery _ hfind hid
  · intro hconn hsucc hwait
    have heq := deliver_async_timeout env db delivery_id delivery dr hfind hget hconn
      hdr hsucc hwait
    have h1 : find_delivery (DB.update db { delivery with status := DStatus.in_progress })
        delivery_id = some { delivery with status := DStatus.in_progress } :=
      find_delivery_update db delivery_id delivery _ hfind hid
    refine ⟨by rw [heq], ?_⟩
    rw [heq]
    exact find_delivery_update _ delivery_id _ _ h1 hid
  · intro hconn hsucc hwait
    have heq := deliver_async_success env db delivery_id delivery dr hfind hget hconn
      hdr hsucc hwait
    have h1 : find_delivery (DB.update db { delivery with status := DStatus.in_progress })
        delivery_id = some { delivery with status := DStatus.in_progress } :=
      find_delivery_update db delivery_id delivery _ hfind hid
    refine ⟨by rw [heq], ?_⟩
    rw [heq]
    exact find_delivery_update _ delivery_id _ _ h1 hid
  · by_cases hconn : env.ensure_connection = false
    · have heq := deliver_async_disconnected env db delivery_id delivery hfind hget hconn
      have hl := find_delivery_update db delivery_id delivery
        { delivery with
          status := DStatus.failed
          error_message := some "Failed to connect to machine" } hfind hid
      rw [heq]
      simp [hl]
    · have hconn2 : env.ensure_connection = true := by
        cases hc : env.ensure_connection
        · exact absurd hc hconn
        · rfl
      cases hsucc : dr.success
      · have heq := deliver_async_rejected env db delivery_id delivery dr hfind hget
          hconn2 hdr hsucc
        have hl := find_delivery_update db delivery_id delivery
          { delivery with status := DStatus.failed, error_message := some dr.message }
          hfind hid
        rw [heq]
        simp [hl]
      · have h1 : find_delivery
            (DB.update db { delivery with status := DStatus.in_progress }) delivery_id =
            some { delivery with status := DStatus.in_progress } :=
          find_delivery_update db delivery_id delivery _ hfind hid
        cases hwait : env.wait_until_group_is_free delivery.group_number 120
        · have heq := deliver_async_timeout env db delivery_id delivery dr hfind hget
            hconn2 hdr hsucc hwait
          have hl := find_delivery_update
            (DB.update db { delivery with status := DStatus.in_progress }) delivery_id
            { delivery with status := DStatus.in_progress }
            { delivery with
              status := DStatus.failed
              error_message := some "Delivery timeout" } h1 hid
          rw [heq]
          simp [hl]
        · have heq := deliver_async_success env db delivery_id delivery dr hfind hget
            hconn2 hdr hsucc hwait
          have hl := find_delivery_update
            (DB.update db { delivery with status := DStatus.in_progress }) delivery_id
            { delivery with status := DStatus.in_progress }
            { delivery with
              status := DStatus.completed
              completed_at := some env.now } h1 hid
          rw [heq]
          simp [hl]

/-- Witness for C3: the happy path on a concrete pending delivery ends
`completed` with `completed_at` set and returns true. -/
theorem deliver_coffee_async_terminal_states_witness :
    find_delivery dbOne 7 = some deliveryOne ∧
      taskEnvOk.get_fault = none ∧
      taskEnvOk.ensure_connection = true ∧
      (deliver_coffee_async taskEnvOk dbOne 7).1 = true ∧
      find_delivery (deliver_coffee_async taskEnvOk dbOne 7).2 7 =
        some { deliveryOne with
          status := DStatus.completed
          completed_at := some 9 } := by
  refine ⟨rfl, rfl, rfl, ?_, ?_⟩
  · exact ((deliver_coffee_async_terminal_states taskEnvOk dbOne 7 deliveryOne
      ⟨true, "Delivery started"⟩ rfl rfl rfl).2.2.2.1 rfl rfl rfl).1
  · exact ((deliver_coffee_async_terminal_states taskEnvOk dbOne 7 deliveryOne
      ⟨true, "Delivery started"⟩ rfl rfl rfl).2.2.2.1 rfl rfl rfl).2

/-- C7: `deliver_coffee_async` never raises past its boundary.  Whenever the
try block raises (with description `msg`), the task returns `False`; if the
recovery write succeeds the delivery is marked `failed` with `msg` as its
error message; if the recovery itself fails — its own load or save raising —
the secondary fault is swallowed and the repository is left as it was. -/
theorem executor_never_raises (env : TaskEnv) (db : DB) (delivery_id : Nat)
    (msg : String) (h : deliver_attempt env db delivery_id = Except.error msg) :
    (deliver_coffee_async env db delivery_id).1 = false ∧
      (env.recovery_fails = false → ∀ d, find_delivery db delivery_id = some d →
        deliver_coffee_async env db delivery_id =
          (false, DB.update db
            { d with status := DStatus.failed, error_message := some msg })) ∧
      (env.recovery_fails = true →
        deliver_coffee_async env db delivery_id = (false, db)) ∧
      (find_delivery db delivery_id = none →
        deliver_coffee_async env db delivery_id = (false, db)) := by
  have heq : deliver_coffee_async env db delivery_id =
      deliver_recover env db delivery_id msg := by
    unfold deliver_coffee_async
    rw [h]
  refine ⟨?_, ?_, ?_, ?_⟩
  · rw [heq]
    unfold deliver_recover
    cases hr : env.recovery_fails
    · rw [if_neg (by simp)]
      cases find_delivery db delivery_id <;> rfl
    · rfl
  · intro hrec d hd
    rw [heq]
    unfold deliver_recover
    rw [hrec, if_neg (by simp), hd]
  · intro hrec
    rw [heq]
    unfold deliver_recover
    rw [hrec, if_pos rfl]
  · intro hnone
    rw [heq]
    unfold deliver_recover
    rw [hnone]
    cases hr : env.recovery_fails <;> simp

/-- Witness for C7: a raising repository load whose recovery also fails is
swallowed — the task returns `False` and the repository is untouched. -/
theorem executor_never_raises_witness :
    deliver_attempt taskEnvFault emptyDB 3 = Except.error "boom" ∧
      taskEnvFault.recovery_fails = true ∧
      (deliver_coffee_async taskEnvFault emptyDB 3).1 = false ∧
      deliver_coffee_async taskEnvFault emptyDB 3 = (false, emptyDB) :=
  ⟨rfl, rfl, (executor_never_raises taskEnvFault emptyDB 3 "boom" rfl).1,
   (executor_never_raises taskEnvFault emptyDB 3 "boom" rfl).2.2.1 rfl⟩

/-- C9: for every snapshot, the coffee type the code resolves is the first
flag set in the fixed priority order `single_short, single_medium,
single_long, double_short, double_medium, double_long, purge`; in particular,
with several flags simultaneously set, the earliest in this order wins, and
an all-flags-false snapshot resolves to none. -/
theorem coffee_type_priority_order (s : StatusDict) :
    get_coffee_type_from_status s = coffee_priority.find? (fun ct => s.flag ct) := by
  rcases s with ⟨a, b, c, d, e, f, p⟩
  cases a <;> cases b <;> cases c <;> cases d <;> cases e <;> cases f <;> cases p <;> rfl

/-- C10: with the enable flag absent from the cache, the scheduled task treats
monitoring as enabled: it runs a full monitoring cycle and returns its result,
never the disabled status. -/
theorem monitoring_enabled_by_default (env : MachineEnv) (now : Nat) (st : CycleState)
    (db : DB) :
    monitor_button_presses none env now st db =
        (TaskResult.cycle (monitor_single_cycle env now st db).1,
         (monitor_single_cycle env now st db).2.1,
         (monitor_single_cycle env now st db).2.2) ∧
      ∀ msg, (monitor_button_presses none env now st db).1 ≠ TaskResult.disabled msg := by
  have heq : monitor_button_presses none env now st db =
      (TaskResult.cycle (monitor_single_cycle env now st db).1,
       (monitor_single_cycle env now st db).2.1,
       (monitor_single_cycle env now st db).2.2) := by
    unfold monitor_button_presses
    rw [if_neg (by simp)]
  exact ⟨heq, fun msg => by rw [heq]; simp⟩

end Spaziale
